import Mathlib

/-!
Verification of the hyper-tls connector and stream layer.

Shallow embedding of `src/client.rs` and `src/stream.rs`.  External
collaborators (the plain connector, the native-tls engine, the tokio
transport) are opaque in the source, so they enter the embedding as
parameters describing the result they would produce at the moment of the
call; the code of this repository around them is translated directly.
-/

deriving instance DecidableEq for Except

namespace HyperTls

/-- std::task::Poll. -/
inductive Poll (α : Type) where
  | ready (r : α)
  | pending
deriving DecidableEq, Repr

/-- The part of std::io::ErrorKind the code inspects: it only ever compares
a kind against WouldBlock, so all other kinds are collapsed into a coded
alternative. -/
inductive IoErrorKind where
  | wouldBlock
  | other (code : Nat)
deriving DecidableEq, Repr

/-- std::io::Error, modelled by its kind (the only part the code reads). -/
structure IoError where
  kind : IoErrorKind
deriving DecidableEq, Repr

/- ===== SyncStream (src/stream.rs lines 14-58) ===== -/

/-- Embeds SyncStream::with_context (src/stream.rs lines 20-32).
`wakerSet` is whether the scoped thread-local WAKER slot currently holds a
waker; `f` is the closure the caller passes (it is the only place the
transport is touched).  Returns the synchronous result together with how
many times `f` ran (0 when the relay is empty, so the transport is never
touched on that path). -/
def SyncStream.with_context {R : Type} (wakerSet : Bool)
    (f : Unit → Except IoError R) : Except IoError R × Nat :=
  if wakerSet = false then
    (Except.error { kind := IoErrorKind.wouldBlock }, 0)
  else
    (f (), 1)

/-- Embeds the Read impl for SyncStream (src/stream.rs lines 51-58).
`pollRead` is the result the wrapped transport's poll_read would give for
this call; the closure interprets Ready as the synchronous result and
Pending as a WouldBlock error. -/
def SyncStream.read (wakerSet : Bool) (pollRead : Poll (Except IoError Nat)) :
    Except IoError Nat × Nat :=
  SyncStream.with_context wakerSet (fun _ =>
    match pollRead with
    | Poll.ready r => r
    | Poll.pending => Except.error { kind := IoErrorKind.wouldBlock })

/-- Embeds Write::write for SyncStream (src/stream.rs lines 36-41). -/
def SyncStream.write (wakerSet : Bool) (pollWrite : Poll (Except IoError Nat)) :
    Except IoError Nat × Nat :=
  SyncStream.with_context wakerSet (fun _ =>
    match pollWrite with
    | Poll.ready r => r
    | Poll.pending => Except.error { kind := IoErrorKind.wouldBlock })

/-- Embeds Write::flush for SyncStream (src/stream.rs lines 43-48). -/
def SyncStream.flush (wakerSet : Bool) (pollFlush : Poll (Except IoError Unit)) :
    Except IoError Unit × Nat :=
  SyncStream.with_context wakerSet (fun _ =>
    match pollFlush with
    | Poll.ready r => r
    | Poll.pending => Except.error { kind := IoErrorKind.wouldBlock })

/- ===== TlsStream (src/stream.rs lines 69-71, 182-224) ===== -/

/-- The opaque native-tls session viewed through the results its synchronous
calls would produce for the current poll: inner.read / inner.write /
inner.flush / inner.shutdown on the wrapped SyncStream. -/
structure TlsEngineOps where
  readResult : Except IoError Nat
  writeResult : Except IoError Nat
  flushResult : Except IoError Unit
  shutdownResult : Except IoError Unit
deriving DecidableEq, Repr

/-- Embeds AsyncRead::poll_read for TlsStream (src/stream.rs lines 183-193):
runs inner.read under WAKER.set and interprets the synchronous result. -/
def TlsStream.poll_read (s : TlsEngineOps) : Poll (Except IoError Nat) :=
  match s.readResult with
  | Except.ok n => Poll.ready (Except.ok n)
  | Except.error e =>
      if e.kind = IoErrorKind.wouldBlock then Poll.pending
      else Poll.ready (Except.error e)

/-- Embeds AsyncWrite::poll_write for TlsStream (src/stream.rs lines 197-207). -/
def TlsStream.poll_write (s : TlsEngineOps) : Poll (Except IoError Nat) :=
  match s.writeResult with
  | Except.ok n => Poll.ready (Except.ok n)
  | Except.error e =>
      if e.kind = IoErrorKind.wouldBlock then Poll.pending
      else Poll.ready (Except.error e)

/-- Embeds AsyncWrite::poll_flush for TlsStream (src/stream.rs lines 209-215). -/
def TlsStream.poll_flush (s : TlsEngineOps) : Poll (Except IoError Unit) :=
  match s.flushResult with
  | Except.ok u => Poll.ready (Except.ok u)
  | Except.error e =>
      if e.kind = IoErrorKind.wouldBlock then Poll.pending
      else Poll.ready (Except.error e)

/-- Embeds AsyncWrite::poll_shutdown for TlsStream (src/stream.rs lines 217-223). -/
def TlsStream.poll_shutdown (s : TlsEngineOps) : Poll (Except IoError Unit) :=
  match s.shutdownResult with
  | Except.ok u => Poll.ready (Except.ok u)
  | Except.error e =>
      if e.kind = IoErrorKind.wouldBlock then Poll.pending
      else Poll.ready (Except.error e)

/- ===== MaybeHttpsStream (src/stream.rs lines 61-66, 102-148) ===== -/

/-- The two-variant union of src/stream.rs lines 61-66.  `T` is the plain
transport, `H` stands for the TlsStream wrapper around it (the type is kept
generic so the same union serves the connector, where the secure payload is
the opaque established session). -/
inductive MaybeHttpsStream (T H : Type) where
  | http (s : T)
  | https (s : H)
deriving DecidableEq, Repr

/-- The variant tag: true exactly on the Https variant. -/
def MaybeHttpsStream.isHttpsVariant {T H : Type} : MaybeHttpsStream T H → Bool
  | MaybeHttpsStream.http _ => false
  | MaybeHttpsStream.https _ => true

/-- The plain transport viewed through the results its four poll operations
would give for the current call. -/
structure StreamOps where
  readOp : Poll (Except IoError Nat)
  writeOp : Poll (Except IoError Nat)
  flushOp : Poll (Except IoError Unit)
  shutdownOp : Poll (Except IoError Unit)
deriving DecidableEq, Repr

/-- Embeds AsyncRead::poll_read for MaybeHttpsStream (src/stream.rs lines
112-121): dispatches to the active variant. -/
def MaybeHttpsStream.poll_read :
    MaybeHttpsStream StreamOps TlsEngineOps → Poll (Except IoError Nat)
  | MaybeHttpsStream.http s => s.readOp
  | MaybeHttpsStream.https s => TlsStream.poll_read s

/-- Embeds AsyncWrite::poll_write for MaybeHttpsStream (src/stream.rs lines
126-135): dispatches to the active variant. -/
def MaybeHttpsStream.poll_write :
    MaybeHttpsStream StreamOps TlsEngineOps → Poll (Except IoError Nat)
  | MaybeHttpsStream.http s => s.writeOp
  | MaybeHttpsStream.https s => TlsStream.poll_write s

/-- Embeds AsyncWrite::poll_flush for MaybeHttpsStream (src/stream.rs lines
137-139): the body is `Poll::Ready(Ok(()))`, ignoring the context and the
active variant entirely (it does not dispatch). -/
def MaybeHttpsStream.poll_flush
    (_s : MaybeHttpsStream StreamOps TlsEngineOps) : Poll (Except IoError Unit) :=
  Poll.ready (Except.ok ())

/-- Embeds AsyncWrite::poll_shutdown for MaybeHttpsStream (src/stream.rs
lines 142-147): dispatches to the active variant. -/
def MaybeHttpsStream.poll_shutdown :
    MaybeHttpsStream StreamOps TlsEngineOps → Poll (Except IoError Unit)
  | MaybeHttpsStream.http s => s.shutdownOp
  | MaybeHttpsStream.https s => TlsStream.poll_shutdown s

/-- A concrete plain transport whose flush operation is an error: used to
exhibit that the union's flush does not consult the active variant. -/
def flushErrOps : StreamOps :=
  { readOp := Poll.pending
    writeOp := Poll.pending
    flushOp := Poll.ready (Except.error { kind := IoErrorKind.other 1 })
    shutdownOp := Poll.pending }

/-- A concrete engine whose synchronous flush fails with a non-WouldBlock
error, so TlsStream.poll_flush on it is ready-with-error. -/
def flushErrEngine : TlsEngineOps :=
  { readResult := Except.ok 0
    writeResult := Except.ok 0
    flushResult := Except.error { kind := IoErrorKind.other 1 }
    shutdownResult := Except.ok () }

/- ===== Handshaking (src/stream.rs lines 226-249) ===== -/

/-- The terminal outcome scripted into a mid-handshake value of the opaque
engine: either a completed session or a terminal error, each identified by
a numeric token. -/
inductive HandshakeOutcome where
  | success (session : Nat)
  | failure (code : Nat)
deriving DecidableEq, Repr

/-- The engine's mid-handshake value, modelled by its script: how many more
times its handshake() call will report WouldBlock before producing its
final outcome. -/
structure MidHandshake where
  remaining : Nat
  final : HandshakeOutcome
deriving DecidableEq, Repr

/-- native_tls::HandshakeError over the modelled mid-handshake value. -/
inductive HandshakeError where
  | wouldBlock (mid : MidHandshake)
  | failure (code : Nat)
deriving DecidableEq, Repr

/-- The opaque engine's MidHandshakeTlsStream::handshake(): consumes one
entry of the script — reports WouldBlock with the rest of the script while
any remains, then the scripted final outcome. -/
def MidHandshake.handshake : MidHandshake → Except HandshakeError Nat
  | { remaining := 0, final := HandshakeOutcome.success s } => Except.ok s
  | { remaining := 0, final := HandshakeOutcome.failure c } =>
      Except.error (HandshakeError.failure c)
  | { remaining := n + 1, final := f } =>
      Except.error (HandshakeError.wouldBlock { remaining := n, final := f })

/-- The Handshaking future (src/stream.rs lines 226-228): an Option slot
holding a completed session, or a handshake error (in-progress WouldBlock
or terminal Failure); None once a terminal result has been yielded. -/
structure Handshaking where
  inner : Option (Except HandshakeError Nat)
deriving DecidableEq, Repr

/-- Embeds Future::poll for Handshaking (src/stream.rs lines 233-248).
Returns None where the source panics (`take().expect("polled after ready")`
on an empty slot); otherwise Some of the source's Poll result, the state
left in the slot afterwards, and the number of times the engine's
handshake primitive ran during this poll. -/
def Handshaking.poll (h : Handshaking) :
    Option (Poll (Except Nat Nat) × Handshaking × Nat) :=
  match h.inner with
  | none => none
  | some (Except.ok stream) =>
      some (Poll.ready (Except.ok stream), { inner := none }, 0)
  | some (Except.error (HandshakeError.wouldBlock mid)) =>
      match mid.handshake with
      | Except.ok stream =>
          some (Poll.ready (Except.ok stream), { inner := none }, 1)
      | Except.error (HandshakeError.failure err) =>
          some (Poll.ready (Except.error err), { inner := none }, 1)
      | Except.error (HandshakeError.wouldBlock mid2) =>
          some (Poll.pending,
            { inner := some (Except.error (HandshakeError.wouldBlock mid2)) }, 1)
  | some (Except.error (HandshakeError.failure err)) =>
      some (Poll.ready (Except.error err), { inner := none }, 0)

/-- Repeatedly polls a Handshaking future (as an executor would) until it
reports ready, with explicit fuel; returns the number of polls that
reported Pending before the ready one, together with the terminal result. -/
def driveHandshake : Handshaking → Nat → Option (Nat × Except Nat Nat)
  | _, 0 => none
  | h, fuel + 1 =>
    match Handshaking.poll h with
    | none => none
    | some (Poll.ready r, _, _) => some (0, r)
    | some (Poll.pending, h2, _) =>
        match driveHandshake h2 fuel with
        | none => none
        | some (n, r) => some (n + 1, r)

/-- A Handshaking future in the in-progress state whose engine will report
WouldBlock n more times across successive polls and then succeed with the
given session. -/
def mkWouldBlockHandshaking (n session : Nat) : Handshaking :=
  { inner := some (Except.error (HandshakeError.wouldBlock
      { remaining := n, final := HandshakeOutcome.success session })) }

/- ===== HttpsConnector (src/client.rs) ===== -/

/-- The part of hyper::Uri the connector reads: scheme_str() and host(). -/
structure Uri where
  scheme : Option String
  host : Option String
deriving DecidableEq, Repr

/-- The character set of the trim in src/client.rs line 171:
`|c| c == '[' || c == ']'`. -/
def isBracketChar (c : Char) : Bool := c = '[' || c = ']'

/-- Rust str::trim_matches with a character-set pattern: repeatedly removes
leading and trailing characters matching the set. -/
def trimMatches (p : Char → Bool) (s : String) : String :=
  String.mk (((s.data.dropWhile p).reverse.dropWhile p).reverse)

/-- The inner HttpConnector, modelled by the one flag the code sets
(src/client.rs lines 49-50). -/
structure HttpConnector where
  enforce_http : Bool
deriving DecidableEq, Repr

/-- hyper's HttpConnector::new(), which enforces the http scheme by default. -/
def HttpConnector.new : HttpConnector := { enforce_http := true }

/-- HttpConnector::enforce_http setter (src/client.rs line 50). -/
def HttpConnector.set_enforce_http (c : HttpConnector) (b : Bool) : HttpConnector :=
  { c with enforce_http := b }

/-- The HttpsConnector of src/client.rs lines 17-22; the TlsConnector is
opaque and carried as a numeric token. -/
structure HttpsConnector (T : Type) where
  force_https : Bool
  http : T
  tls : Nat
deriving DecidableEq, Repr

/-- The opaque default TlsConnector produced by default_tls_connector()
(src/client.rs lines 55-59). -/
def defaultTlsConnector : Nat := 0

/-- Embeds the From<(T, TlsConnector)> impl (src/client.rs lines 123-131). -/
def HttpsConnector.fromParts {T : Type} (args : T × Nat) : HttpsConnector T :=
  { force_https := false, http := args.1, tls := args.2 }

/-- Embeds HttpsConnector::new_ (src/client.rs lines 48-52). -/
def HttpsConnector.new_ (tls : Nat) : HttpsConnector HttpConnector :=
  HttpsConnector.fromParts (HttpConnector.set_enforce_http HttpConnector.new false, tls)

/-- Embeds HttpsConnector::new (src/client.rs lines 44-46). -/
def HttpsConnector.new : HttpsConnector HttpConnector :=
  HttpsConnector.new_ defaultTlsConnector

/-- Embeds HttpsConnector::new_with_connector (src/client.rs lines 118-120). -/
def HttpsConnector.new_with_connector {T : Type} (http : T) : HttpsConnector T :=
  HttpsConnector.fromParts (http, defaultTlsConnector)

/-- Embeds the Default impl (src/client.rs lines 102-106), with the default
value of T passed explicitly. -/
def HttpsConnector.defaultConn {T : Type} (d : T) : HttpsConnector T :=
  HttpsConnector.new_with_connector d

/-- Embeds HttpsConnector::https_only (src/client.rs lines 112-114). -/
def HttpsConnector.https_only {T : Type} (c : HttpsConnector T) (enable : Bool) :
    HttpsConnector T :=
  { c with force_https := enable }

/-- The error cases the connect future can produce (src/client.rs lines
164-165, 176, 181/185): the forced-https scheme error, the inner
connector's error, or the TLS connect error. -/
inductive ConnectError (E : Type) where
  | forceHttpsButUriNotHttps
  | plain (e : E)
  | tls (code : Nat)
deriving DecidableEq, Repr

/-- Everything observable about one call of the connector driven to
completion: the result, how many times the inner connector's call ran, how
many TLS handshakes were attempted, and the host string handed to
tls.connect (None when no handshake was attempted). -/
structure CallOutcome (T E : Type) where
  result : Except (ConnectError E) (MaybeHttpsStream T Nat)
  plainCalls : Nat
  handshakeAttempts : Nat
  hostUsed : Option String
deriving DecidableEq, Repr

/-- Embeds Service::call for HttpsConnector (src/client.rs lines 161-194)
together with awaiting the returned future.  `plainConnect` is the inner
connector's behaviour (self.http.call(dst) awaited); `tlsConnect` is the
opaque TlsConnector's connect(host, tcp) awaited, taking the cloned tls
token, and yielding an established session token. -/
def HttpsConnector.call {T E : Type} (c : HttpsConnector T) (dst : Uri)
    (plainConnect : Uri → Except E T)
    (tlsConnect : Nat → String → T → Except Nat Nat) : CallOutcome T E :=
  let is_https := dst.scheme == some "https"
  if !is_https && c.force_https then
    { result := Except.error ConnectError.forceHttpsButUriNotHttps
      plainCalls := 0, handshakeAttempts := 0, hostUsed := none }
  else
    let host := trimMatches isBracketChar ((dst.host).getD "")
    match plainConnect dst with
    | Except.error e =>
        { result := Except.error (ConnectError.plain e)
          plainCalls := 1, handshakeAttempts := 0, hostUsed := none }
    | Except.ok tcp =>
        if is_https then
          match tlsConnect c.tls host tcp with
          | Except.error e =>
              { result := Except.error (ConnectError.tls e)
                plainCalls := 1, handshakeAttempts := 1, hostUsed := some host }
          | Except.ok session =>
              { result := Except.ok (MaybeHttpsStream.https session)
                plainCalls := 1, handshakeAttempts := 1, hostUsed := some host }
        else
          { result := Except.ok (MaybeHttpsStream.http tcp)
            plainCalls := 1, handshakeAttempts := 0, hostUsed := none }

/-- Interpretation of a synchronous engine result as a poll result — the
match shared verbatim by the four TlsStream poll impls (src/stream.rs lines
188-192, 202-206, 210-214, 218-222); each poll op is definitionally this
interpretation of the respective engine call's result. -/
def interpSync {α : Type} (r : Except IoError α) : Poll (Except IoError α) :=
  match r with
  | Except.ok n => Poll.ready (Except.ok n)
  | Except.error e =>
      if e.kind = IoErrorKind.wouldBlock then Poll.pending
      else Poll.ready (Except.error e)

/-- An engine whose four synchronous calls all succeed. -/
def engineAllOk : TlsEngineOps :=
  { readResult := Except.ok 3, writeResult := Except.ok 4
    flushResult := Except.ok (), shutdownResult := Except.ok () }

/-- An engine whose four synchronous calls all fail with WouldBlock. -/
def engineAllWb : TlsEngineOps :=
  { readResult := Except.error { kind := IoErrorKind.wouldBlock }
    writeResult := Except.error { kind := IoErrorKind.wouldBlock }
    flushResult := Except.error { kind := IoErrorKind.wouldBlock }
    shutdownResult := Except.error { kind := IoErrorKind.wouldBlock } }

/-- An engine whose four synchronous calls all fail with a non-WouldBlock
error. -/
def engineAllErr : TlsEngineOps :=
  { readResult := Except.error { kind := IoErrorKind.other 2 }
    writeResult := Except.error { kind := IoErrorKind.other 2 }
    flushResult := Except.error { kind := IoErrorKind.other 2 }
    shutdownResult := Except.error { kind := IoErrorKind.other 2 } }

/- ===== Shared lemmas ===== -/

theorem poll_read_eq_interp (s : TlsEngineOps) :
    TlsStream.poll_read s = interpSync s.readResult := by
  rcases s with ⟨r, w, f, sd⟩
  cases r <;> cases w <;> cases f <;> cases sd <;> rfl

theorem poll_write_eq_interp (s : TlsEngineOps) :
    TlsStream.poll_write s = interpSync s.writeResult := by
  rcases s with ⟨r, w, f, sd⟩
  cases r <;> cases w <;> cases f <;> cases sd <;> rfl

theorem poll_flush_eq_interp (s : TlsEngineOps) :
    TlsStream.poll_flush s = interpSync s.flushResult := by
  rcases s with ⟨r, w, f, sd⟩
  cases r <;> cases w <;> cases f <;> cases sd <;> rfl

theorem poll_shutdown_eq_interp (s : TlsEngineOps) :
    TlsStream.poll_shutdown s = interpSync s.shutdownResult := by
  rcases s with ⟨r, w, f, sd⟩
  cases r <;> cases w <;> cases f <;> cases sd <;> rfl

theorem interpSync_ok {α : Type} {r : Except IoError α} {v : α}
    (h : r = Except.ok v) : interpSync r = Poll.ready (Except.ok v) := by
  subst h; rfl

theorem interpSync_wouldBlock {α : Type} {r : Except IoError α} {e : IoError}
    (h : r = Except.error e) (hk : e.kind = IoErrorKind.wouldBlock) :
    interpSync r = Poll.pending := by
  subst h; simp [interpSync, hk]

theorem interpSync_err {α : Type} {r : Except IoError α} {e : IoError}
    (h : r = Except.error e) (hk : e.kind ≠ IoErrorKind.wouldBlock) :
    interpSync r = Poll.ready (Except.error e) := by
  subst h; simp [interpSync, hk]

theorem interpSync_no_wouldBlock {α : Type} {r : Except IoError α} {e : IoError}
    (h : interpSync r = Poll.ready (Except.error e)) :
    e.kind ≠ IoErrorKind.wouldBlock := by
  rcases r with e2 | v
  · by_cases hk : e2.kind = IoErrorKind.wouldBlock
    · simp [interpSync, hk] at h
    · simp [interpSync, hk] at h
      subst h
      exact hk
  · simp [interpSync] at h

theorem call_case_forced {T E : Type} (c : HttpsConnector T) (dst : Uri)
    (pc : Uri → Except E T) (tc : Nat → String → T → Except Nat Nat)
    (hs : (dst.scheme == some "https") = false) (hf : c.force_https = true) :
    c.call dst pc tc =
      { result := Except.error ConnectError.forceHttpsButUriNotHttps
        plainCalls := 0, handshakeAttempts := 0, hostUsed := none } := by
  simp [HttpsConnector.call, hs, hf]

theorem call_case_plain_err {T E : Type} (c : HttpsConnector T) (dst : Uri)
    (pc : Uri → Except E T) (tc : Nat → String → T → Except Nat Nat) (e : E)
    (hg : (!(dst.scheme == some "https") && c.force_https) = false)
    (hpc : pc dst = Except.error e) :
    c.call dst pc tc =
      { result := Except.error (ConnectError.plain e)
        plainCalls := 1, handshakeAttempts := 0, hostUsed := none } := by
  simp [HttpsConnector.call, hg, hpc]

theorem call_case_plain_ok_insecure {T E : Type} (c : HttpsConnector T) (dst : Uri)
    (pc : Uri → Except E T) (tc : Nat → String → T → Except Nat Nat) (tcp : T)
    (hs : (dst.scheme == some "https") = false) (hf : c.force_https = false)
    (hpc : pc dst = Except.ok tcp) :
    c.call dst pc tc =
      { result := Except.ok (MaybeHttpsStream.http tcp)
        plainCalls := 1, handshakeAttempts := 0, hostUsed := none } := by
  simp [HttpsConnector.call, hs, hf, hpc]

theorem call_case_https_tls_ok {T E : Type} (c : HttpsConnector T) (dst : Uri)
    (pc : Uri → Except E T) (tc : Nat → String → T → Except Nat Nat)
    (tcp : T) (session : Nat)
    (hs : (dst.scheme == some "https") = true)
    (hpc : pc dst = Except.ok tcp)
    (htc : tc c.tls (trimMatches isBracketChar ((dst.host).getD "")) tcp =
        Except.ok session) :
    c.call dst pc tc =
      { result := Except.ok (MaybeHttpsStream.https session)
        plainCalls := 1, handshakeAttempts := 1
        hostUsed := some (trimMatches isBracketChar ((dst.host).getD "")) } := by
  simp [HttpsConnector.call, hs, hpc, htc]

theorem call_case_https_tls_err {T E : Type} (c : HttpsConnector T) (dst : Uri)
    (pc : Uri → Except E T) (tc : Nat → String → T → Except Nat Nat)
    (tcp : T) (e : Nat)
    (hs : (dst.scheme == some "https") = true)
    (hpc : pc dst = Except.ok tcp)
    (htc : tc c.tls (trimMatches isBracketChar ((dst.host).getD "")) tcp =
        Except.error e) :
    c.call dst pc tc =
      { result := Except.error (ConnectError.tls e)
        plainCalls := 1, handshakeAttempts := 1
        hostUsed := some (trimMatches isBracketChar ((dst.host).getD "")) } := by
  simp [HttpsConnector.call, hs, hpc, htc]

/- ===== Claim theorems ===== -/

/-- Claim C1: for every target URI whose scheme is not "https", if the
connector's force_https flag is true, the call operation returns the
ForceHttpsButUriNotHttps (SchemeNotSecure) error immediately and the inner
plain connector's call is never invoked (zero transport attempts). -/
theorem call_force_https_rejects_insecure_scheme {T E : Type}
    (c : HttpsConnector T) (dst : Uri)
    (pc : Uri → Except E T) (tc : Nat → String → T → Except Nat Nat)
    (hforce : c.force_https = true) (hscheme : dst.scheme ≠ some "https") :
    (c.call dst pc tc).result =
        Except.error ConnectError.forceHttpsButUriNotHttps ∧
    (c.call dst pc tc).plainCalls = 0 := by
  have hs : (dst.scheme == some "https") = false := by
    simp only [beq_eq_false_iff_ne, ne_eq]
    exact hscheme
  rw [call_case_forced c dst pc tc hs hforce]
  exact ⟨rfl, rfl⟩

/-- Witness for C1 at a concrete insecure target with force_https on: the
call errors and the plain connector records zero calls. -/
theorem call_force_https_rejects_insecure_scheme_witness :
    (({ force_https := true, http := 0, tls := 0 } : HttpsConnector Nat).call
        { scheme := some "http", host := some "example.com" }
        (fun _ => (Except.ok 5 : Except Nat Nat))
        (fun _ _ _ => Except.ok 1)).result =
      Except.error ConnectError.forceHttpsButUriNotHttps ∧
    (({ force_https := true, http := 0, tls := 0 } : HttpsConnector Nat).call
        { scheme := some "http", host := some "example.com" }
        (fun _ => (Except.ok 5 : Except Nat Nat))
        (fun _ _ _ => Except.ok 1)).plainCalls = 0 :=
  call_force_https_rejects_insecure_scheme
    { force_https := true, http := 0, tls := 0 }
    { scheme := some "http", host := some "example.com" }
    (fun _ => (Except.ok 5 : Except Nat Nat))
    (fun _ _ _ => Except.ok 1)
    rfl (by decide)

/-- Claim C10: the From-pair constructor starts with force_https = false;
new, new_with_connector and Default all delegate to it (so they also start
with force_https = false); https_only modifies only the force_https flag,
leaving the inner plain connector and the TLS context unchanged. -/
theorem constructors_start_with_force_https_off {T : Type}
    (http : T) (tls : Nat) (d : T) (c : HttpsConnector T) (enable : Bool) :
    (HttpsConnector.fromParts (http, tls)).force_https = false ∧
    HttpsConnector.new = HttpsConnector.fromParts
        (HttpConnector.set_enforce_http HttpConnector.new false,
         defaultTlsConnector) ∧
    HttpsConnector.new.force_https = false ∧
    HttpsConnector.new_with_connector http =
        HttpsConnector.fromParts (http, defaultTlsConnector) ∧
    (HttpsConnector.new_with_connector http).force_https = false ∧
    HttpsConnector.defaultConn d = HttpsConnector.new_with_connector d ∧
    (HttpsConnector.defaultConn d).force_https = false ∧
    (c.https_only enable).force_https = enable ∧
    (c.https_only enable).http = c.http ∧
    (c.https_only enable).tls = c.tls :=
  ⟨rfl, rfl, rfl, rfl, rfl, rfl, rfl, rfl, rfl, rfl⟩

/-- Claim C3 (code bug exhibit): MaybeHttpsStream's poll_flush does not
dispatch to the active variant — it returns Ready(Ok(())) even when the
active variant's own flush operation would return an error, on both the
Http and the Https variant; the other three operations do dispatch. -/
theorem maybe_https_stream_flush_ignores_variant :
    MaybeHttpsStream.poll_flush (MaybeHttpsStream.http flushErrOps) =
        Poll.ready (Except.ok ()) ∧
    flushErrOps.flushOp =
        Poll.ready (Except.error { kind := IoErrorKind.other 1 }) ∧
    MaybeHttpsStream.poll_flush (MaybeHttpsStream.https flushErrEngine) =
        Poll.ready (Except.ok ()) ∧
    TlsStream.poll_flush flushErrEngine =
        Poll.ready (Except.error { kind := IoErrorKind.other 1 }) ∧
    MaybeHttpsStream.poll_read (MaybeHttpsStream.http flushErrOps) =
        flushErrOps.readOp ∧
    MaybeHttpsStream.poll_write (MaybeHttpsStream.http flushErrOps) =
        flushErrOps.writeOp ∧
    MaybeHttpsStream.poll_shutdown (MaybeHttpsStream.http flushErrOps) =
        flushErrOps.shutdownOp ∧
    MaybeHttpsStream.poll_read (MaybeHttpsStream.https flushErrEngine) =
        TlsStream.poll_read flushErrEngine ∧
    MaybeHttpsStream.poll_write (MaybeHttpsStream.https flushErrEngine) =
        TlsStream.poll_write flushErrEngine ∧
    MaybeHttpsStream.poll_shutdown (MaybeHttpsStream.https flushErrEngine) =
        TlsStream.poll_shutdown flushErrEngine :=
  ⟨rfl, rfl, rfl, rfl, rfl, rfl, rfl, rfl, rfl, rfl⟩

theorem driveHandshake_mk (n session : Nat) :
    driveHandshake (mkWouldBlockHandshaking n session) (n + 1) =
      some (n, Except.ok session) := by
  induction n with
  | zero => rfl
  | succ k ih =>
    have h1 : Handshaking.poll (mkWouldBlockHandshaking (k + 1) session) =
        some (Poll.pending, mkWouldBlockHandshaking k session, 1) := rfl
    have h2 : driveHandshake (mkWouldBlockHandshaking (k + 1) session)
        (k + 1 + 1) =
        match driveHandshake (mkWouldBlockHandshaking k session) (k + 1) with
        | none => none
        | some (m, r) => some (m + 1, r) := by
      rw [driveHandshake, h1]
    rw [h2, ih]

/-- Claim C4: from the in-progress (WouldBlock mid-handshake) state, one
poll step moves the Handshake Process to Done (ready with a session),
Failed (ready with a terminal error), or keeps it in progress holding the
updated mid-handshake value; and once a poll has yielded a terminal
(ready) result, the process has no further transition at all (a later poll
hits the polled-after-ready panic), so it never moves back to in-progress
and yields a terminal result at most once. -/
theorem handshaking_step_monotone :
    (∀ mid : MidHandshake,
      (∃ s, Handshaking.poll
          { inner := some (Except.error (HandshakeError.wouldBlock mid)) } =
        some (Poll.ready (Except.ok s), { inner := none }, 1)) ∨
      (∃ e, Handshaking.poll
          { inner := some (Except.error (HandshakeError.wouldBlock mid)) } =
        some (Poll.ready (Except.error e), { inner := none }, 1)) ∨
      (∃ mid2, mid.handshake = Except.error (HandshakeError.wouldBlock mid2) ∧
        Handshaking.poll
            { inner := some (Except.error (HandshakeError.wouldBlock mid)) } =
          some (Poll.pending,
            { inner := some (Except.error (HandshakeError.wouldBlock mid2)) },
            1))) ∧
    (∀ (h h2 : Handshaking) (r : Except Nat Nat) (n : Nat),
      Handshaking.poll h = some (Poll.ready r, h2, n) →
      Handshaking.poll h2 = none) := by
  constructor
  · intro mid
    rcases mid with ⟨rem, fin⟩
    cases rem with
    | zero =>
      cases fin with
      | success s => exact Or.inl ⟨s, rfl⟩
      | failure c => exact Or.inr (Or.inl ⟨c, rfl⟩)
    | succ k =>
      exact Or.inr (Or.inr ⟨{ remaining := k, final := fin }, rfl, rfl⟩)
  · intro h h2 r n hp
    rcases h with ⟨inner⟩
    simp only [Handshaking.poll] at hp
    split at hp
    · simp at hp
    · simp only [Option.some.injEq, Prod.mk.injEq] at hp
      obtain ⟨-, hh2, -⟩ := hp
      subst hh2
      rfl
    · split at hp
      · simp only [Option.some.injEq, Prod.mk.injEq] at hp
        obtain ⟨-, hh2, -⟩ := hp
        subst hh2
        rfl
      · simp only [Option.some.injEq, Prod.mk.injEq] at hp
        obtain ⟨-, hh2, -⟩ := hp
        subst hh2
        rfl
      · simp at hp
    · simp only [Option.some.injEq, Prod.mk.injEq] at hp
      obtain ⟨-, hh2, -⟩ := hp
      subst hh2
      rfl

/-- Witness for C4: at the in-progress state with one remaining would-block
report, and at a terminal poll from a completed-slot state, the two parts
of the theorem hold concretely. -/
theorem handshaking_step_monotone_witness :
    Handshaking.poll { inner := none } = none :=
  handshaking_step_monotone.2
    { inner := some (Except.ok 3) } { inner := none } (Except.ok 3) 0 rfl

/-- Claim C5: a Handshake Process whose engine reports would-block n times
across successive polls and then succeeds reports Pending exactly n times
before the poll that is ready with the completed session, and each poll
taken in the would-block state invokes the engine's handshake primitive
exactly once. -/
theorem handshaking_suspends_exactly_n_times (n session : Nat) :
    driveHandshake (mkWouldBlockHandshaking n session) (n + 1) =
      some (n, Except.ok session) ∧
    ∀ mid : MidHandshake, ∃ r h2,
      Handshaking.poll
          { inner := some (Except.error (HandshakeError.wouldBlock mid)) } =
        some (r, h2, 1) := by
  refine ⟨driveHandshake_mk n session, ?_⟩
  intro mid
  rcases mid with ⟨rem, fin⟩
  cases rem with
  | zero =>
    cases fin with
    | success s => exact ⟨Poll.ready (Except.ok s), { inner := none }, rfl⟩
    | failure c => exact ⟨Poll.ready (Except.error c), { inner := none }, rfl⟩
  | succ k =>
    exact ⟨Poll.pending,
      { inner := some (Except.error (HandshakeError.wouldBlock
          { remaining := k, final := fin })) }, rfl⟩

/-- Claim C8: once a poll of the Handshake Process has returned a terminal
(ready) result — completed or failed — the internal slot is consumed
(none), and a subsequent poll hits the polled-after-ready panic instead of
reporting ready again; in particular it never silently succeeds. -/
theorem handshaking_never_ready_after_terminal
    (h h2 : Handshaking) (r : Except Nat Nat) (n : Nat)
    (hp : Handshaking.poll h = some (Poll.ready r, h2, n)) :
    h2.inner = none ∧ Handshaking.poll h2 = none := by
  rcases h with ⟨inner⟩
  simp only [Handshaking.poll] at hp
  split at hp
  · simp at hp
  · simp only [Option.some.injEq, Prod.mk.injEq] at hp
    obtain ⟨-, hh2, -⟩ := hp
    subst hh2
    exact ⟨rfl, rfl⟩
  · split at hp
    · simp only [Option.some.injEq, Prod.mk.injEq] at hp
      obtain ⟨-, hh2, -⟩ := hp
      subst hh2
      exact ⟨rfl, rfl⟩
    · simp only [Option.some.injEq, Prod.mk.injEq] at hp
      obtain ⟨-, hh2, -⟩ := hp
      subst hh2
      exact ⟨rfl, rfl⟩
    · simp at hp
  · simp only [Option.some.injEq, Prod.mk.injEq] at hp
    obtain ⟨-, hh2, -⟩ := hp
    subst hh2
    exact ⟨rfl, rfl⟩

/-- Witness for C8: polling a process whose engine has terminally failed
consumes the slot, and the next poll panics rather than succeeding. -/
theorem handshaking_never_ready_after_terminal_witness :
    ({ inner := none } : Handshaking).inner = none ∧
    Handshaking.poll { inner := none } = none :=
  handshaking_never_ready_after_terminal
    { inner := some (Except.error (HandshakeError.failure 4)) }
    { inner := none } (Except.error 4) 0 rfl

/-- Claim C6: each of the four TlsStream poll operations interprets the
synchronous engine call's result as success → Ready(Ok value), WouldBlock
error → Pending, any other error → Ready(Err error); consequently none of
the four ever returns an error of kind WouldBlock to its caller. -/
theorem tls_stream_interprets_engine_result (s : TlsEngineOps) :
    ((∀ n, s.readResult = Except.ok n →
        TlsStream.poll_read s = Poll.ready (Except.ok n)) ∧
     (∀ e, s.readResult = Except.error e → e.kind = IoErrorKind.wouldBlock →
        TlsStream.poll_read s = Poll.pending) ∧
     (∀ e, s.readResult = Except.error e → e.kind ≠ IoErrorKind.wouldBlock →
        TlsStream.poll_read s = Poll.ready (Except.error e)) ∧
     (∀ e, TlsStream.poll_read s = Poll.ready (Except.error e) →
        e.kind ≠ IoErrorKind.wouldBlock)) ∧
    ((∀ n, s.writeResult = Except.ok n →
        TlsStream.poll_write s = Poll.ready (Except.ok n)) ∧
     (∀ e, s.writeResult = Except.error e → e.kind = IoErrorKind.wouldBlock →
        TlsStream.poll_write s = Poll.pending) ∧
     (∀ e, s.writeResult = Except.error e → e.kind ≠ IoErrorKind.wouldBlock →
        TlsStream.poll_write s = Poll.ready (Except.error e)) ∧
     (∀ e, TlsStream.poll_write s = Poll.ready (Except.error e) →
        e.kind ≠ IoErrorKind.wouldBlock)) ∧
    ((∀ u, s.flushResult = Except.ok u →
        TlsStream.poll_flush s = Poll.ready (Except.ok u)) ∧
     (∀ e, s.flushResult = Except.error e → e.kind = IoErrorKind.wouldBlock →
        TlsStream.poll_flush s = Poll.pending) ∧
     (∀ e, s.flushResult = Except.error e → e.kind ≠ IoErrorKind.wouldBlock →
        TlsStream.poll_flush s = Poll.ready (Except.error e)) ∧
     (∀ e, TlsStream.poll_flush s = Poll.ready (Except.error e) →
        e.kind ≠ IoErrorKind.wouldBlock)) ∧
    ((∀ u, s.shutdownResult = Except.ok u →
        TlsStream.poll_shutdown s = Poll.ready (Except.ok u)) ∧
     (∀ e, s.shutdownResult = Except.error e →
        e.kind = IoErrorKind.wouldBlock →
        TlsStream.poll_shutdown s = Poll.pending) ∧
     (∀ e, s.shutdownResult = Except.error e →
        e.kind ≠ IoErrorKind.wouldBlock →
        TlsStream.poll_shutdown s = Poll.ready (Except.error e)) ∧
     (∀ e, TlsStream.poll_shutdown s = Poll.ready (Except.error e) →
        e.kind ≠ IoErrorKind.wouldBlock)) := by
  refine ⟨⟨?_, ?_, ?_, ?_⟩, ⟨?_, ?_, ?_, ?_⟩, ⟨?_, ?_, ?_, ?_⟩,
    ⟨?_, ?_, ?_, ?_⟩⟩
  · intro n h
    rw [poll_read_eq_interp]
    exact interpSync_ok h
  · intro e h hk
    rw [poll_read_eq_interp]
    exact interpSync_wouldBlock h hk
  · intro e h hk
    rw [poll_read_eq_interp]
    exact interpSync_err h hk
  · intro e h
    rw [poll_read_eq_interp] at h
    exact interpSync_no_wouldBlock h
  · intro n h
    rw [poll_write_eq_interp]
    exact interpSync_ok h
  · intro e h hk
    rw [poll_write_eq_interp]
    exact interpSync_wouldBlock h hk
  · intro e h hk
    rw [poll_write_eq_interp]
    exact interpSync_err h hk
  · intro e h
    rw [poll_write_eq_interp] at h
    exact interpSync_no_wouldBlock h
  · intro u h
    rw [poll_flush_eq_interp]
    exact interpSync_ok h
  · intro e h hk
    rw [poll_flush_eq_interp]
    exact interpSync_wouldBlock h hk
  · intro e h hk
    rw [poll_flush_eq_interp]
    exact interpSync_err h hk
  · intro e h
    rw [poll_flush_eq_interp] at h
    exact interpSync_no_wouldBlock h
  · intro u h
    rw [poll_shutdown_eq_interp]
    exact interpSync_ok h
  · intro e h hk
    rw [poll_shutdown_eq_interp]
    exact interpSync_wouldBlock h hk
  · intro e h hk
    rw [poll_shutdown_eq_interp]
    exact interpSync_err h hk
  · intro e h
    rw [poll_shutdown_eq_interp] at h
    exact interpSync_no_wouldBlock h

/-- Witness for C6: concrete engines exercising the success, would-block
and other-error interpretations, and the never-surfaced consequence. -/
theorem tls_stream_interprets_engine_result_witness :
    TlsStream.poll_read engineAllOk = Poll.ready (Except.ok 3) ∧
    TlsStream.poll_write engineAllWb = Poll.pending ∧
    TlsStream.poll_flush engineAllErr =
        Poll.ready (Except.error { kind := IoErrorKind.other 2 }) ∧
    ({ kind := IoErrorKind.other 2 } : IoError).kind ≠
        IoErrorKind.wouldBlock :=
  ⟨(tls_stream_interprets_engine_result engineAllOk).1.1 3 rfl,
   (tls_stream_interprets_engine_result engineAllWb).2.1.2.1
      { kind := IoErrorKind.wouldBlock } rfl rfl,
   (tls_stream_interprets_engine_result engineAllErr).2.2.1.2.2.1
      { kind := IoErrorKind.other 2 } rfl (by decide),
   (tls_stream_interprets_engine_result engineAllErr).2.2.2.2.2.2
      { kind := IoErrorKind.other 2 } rfl⟩

/-- Claim C7: the Synchronous Adapter's blocking-style read, write and
flush return a WouldBlock error without touching the transport when the
WAKER relay is empty; otherwise they invoke the transport's poll operation
exactly once and return the value on Ready(Ok), a WouldBlock error on
Pending, and the transport's error unchanged on Ready(Err). -/
theorem sync_stream_translates_poll (wakerSet : Bool)
    (pr pw : Poll (Except IoError Nat)) (pf : Poll (Except IoError Unit)) :
    (wakerSet = false →
      SyncStream.read wakerSet pr =
          (Except.error { kind := IoErrorKind.wouldBlock }, 0) ∧
      SyncStream.write wakerSet pw =
          (Except.error { kind := IoErrorKind.wouldBlock }, 0) ∧
      SyncStream.flush wakerSet pf =
          (Except.error { kind := IoErrorKind.wouldBlock }, 0)) ∧
    (wakerSet = true →
      (SyncStream.read wakerSet pr).2 = 1 ∧
      (SyncStream.write wakerSet pw).2 = 1 ∧
      (SyncStream.flush wakerSet pf).2 = 1 ∧
      (∀ v, pr = Poll.ready (Except.ok v) →
        (SyncStream.read wakerSet pr).1 = Except.ok v) ∧
      (pr = Poll.pending →
        (SyncStream.read wakerSet pr).1 =
          Except.error { kind := IoErrorKind.wouldBlock }) ∧
      (∀ e, pr = Poll.ready (Except.error e) →
        (SyncStream.read wakerSet pr).1 = Except.error e) ∧
      (∀ v, pw = Poll.ready (Except.ok v) →
        (SyncStream.write wakerSet pw).1 = Except.ok v) ∧
      (pw = Poll.pending →
        (SyncStream.write wakerSet pw).1 =
          Except.error { kind := IoErrorKind.wouldBlock }) ∧
      (∀ e, pw = Poll.ready (Except.error e) →
        (SyncStream.write wakerSet pw).1 = Except.error e) ∧
      (∀ v, pf = Poll.ready (Except.ok v) →
        (SyncStream.flush wakerSet pf).1 = Except.ok v) ∧
      (pf = Poll.pending →
        (SyncStream.flush wakerSet pf).1 =
          Except.error { kind := IoErrorKind.wouldBlock }) ∧
      (∀ e, pf = Poll.ready (Except.error e) →
        (SyncStream.flush wakerSet pf).1 = Except.error e)) := by
  constructor
  · intro hw
    subst hw
    exact ⟨rfl, rfl, rfl⟩
  · intro hw
    subst hw
    refine ⟨rfl, rfl, rfl, ?_, ?_, ?_, ?_, ?_, ?_, ?_, ?_, ?_⟩
    · intro v h
      subst h
      rfl
    · intro h
      subst h
      rfl
    · intro e h
      subst h
      rfl
    · intro v h
      subst h
      rfl
    · intro h
      subst h
      rfl
    · intro e h
      subst h
      rfl
    · intro v h
      subst h
      rfl
    · intro h
      subst h
      rfl
    · intro e h
      subst h
      rfl

/-- Witness for C7: concrete calls with the relay empty (would-block, zero
transport touches) and with the relay set (value returned, pending turned
into would-block, transport error passed through). -/
theorem sync_stream_translates_poll_witness :
    SyncStream.read false (Poll.ready (Except.ok 9)) =
        (Except.error { kind := IoErrorKind.wouldBlock }, 0) ∧
    (SyncStream.read true (Poll.ready (Except.ok 9))).1 = Except.ok 9 ∧
    (SyncStream.write true Poll.pending).1 =
        Except.error { kind := IoErrorKind.wouldBlock } ∧
    (SyncStream.flush true
        (Poll.ready (Except.error { kind := IoErrorKind.other 5 }))).1 =
      Except.error { kind := IoErrorKind.other 5 } :=
  ⟨((sync_stream_translates_poll false (Poll.ready (Except.ok 9))
      Poll.pending Poll.pending).1 rfl).1,
   ((sync_stream_translates_poll true (Poll.ready (Except.ok 9))
      Poll.pending Poll.pending).2 rfl).2.2.2.1 9 rfl,
   ((sync_stream_translates_poll true (Poll.ready (Except.ok 9))
      Poll.pending Poll.pending).2 rfl).2.2.2.2.2.2.2.1 rfl,
   ((sync_stream_translates_poll true (Poll.ready (Except.ok 9))
      Poll.pending
      (Poll.ready (Except.error { kind := IoErrorKind.other 5 }))).2
      rfl).2.2.2.2.2.2.2.2.2.2.2 { kind := IoErrorKind.other 5 } rfl⟩

/-- Claim C2: when the connector's call succeeds, the returned stream's
variant tag is Https exactly when the target scheme is "https"; for a
non-secure scheme with force_https off the result is the plaintext Http
variant and no handshake is attempted, and for an "https" scheme with a
successful plain connection and handshake the result is the Https variant. -/
theorem call_variant_tag_matches_scheme {T E : Type}
    (c : HttpsConnector T) (dst : Uri)
    (pc : Uri → Except E T) (tc : Nat → String → T → Except Nat Nat) :
    (∀ s, (c.call dst pc tc).result = Except.ok s →
        s.isHttpsVariant = (dst.scheme == some "https")) ∧
    ((dst.scheme == some "https") = false → c.force_https = false →
        (c.call dst pc tc).handshakeAttempts = 0 ∧
        ∀ tcp, pc dst = Except.ok tcp →
          (c.call dst pc tc).result =
            Except.ok (MaybeHttpsStream.http tcp)) ∧
    ((dst.scheme == some "https") = true →
        ∀ tcp session, pc dst = Except.ok tcp →
          tc c.tls (trimMatches isBracketChar ((dst.host).getD "")) tcp =
              Except.ok session →
          (c.call dst pc tc).result =
            Except.ok (MaybeHttpsStream.https session)) := by
  refine ⟨?_, ?_, ?_⟩
  · intro s hres
    cases hs : (dst.scheme == some "https") with
    | false =>
      cases hf : c.force_https with
      | false =>
        rcases hpc : pc dst with e | tcp
        · rw [call_case_plain_err c dst pc tc e (by simp [hs, hf]) hpc]
            at hres
          simp at hres
        · rw [call_case_plain_ok_insecure c dst pc tc tcp hs hf hpc] at hres
          simp only [Except.ok.injEq] at hres
          subst hres
          rfl
      | true =>
        rw [call_case_forced c dst pc tc hs hf] at hres
        simp at hres
    | true =>
      rcases hpc : pc dst with e | tcp
      · rw [call_case_plain_err c dst pc tc e (by simp [hs]) hpc] at hres
        simp at hres
      · rcases htc : tc c.tls
            (trimMatches isBracketChar ((dst.host).getD "")) tcp
          with e2 | sess
        · rw [call_case_https_tls_err c dst pc tc tcp e2 hs hpc htc] at hres
          simp at hres
        · rw [call_case_https_tls_ok c dst pc tc tcp sess hs hpc htc] at hres
          simp only [Except.ok.injEq] at hres
          subst hres
          rfl
  · intro hs hf
    constructor
    · rcases hpc : pc dst with e | tcp
      · rw [call_case_plain_err c dst pc tc e (by simp [hs, hf]) hpc]
      · rw [call_case_plain_ok_insecure c dst pc tc tcp hs hf hpc]
    · intro tcp hpc
      rw [call_case_plain_ok_insecure c dst pc tc tcp hs hf hpc]
  · intro hs tcp session hpc htc
    rw [call_case_https_tls_ok c dst pc tc tcp session hs hpc htc]

/-- Witness for C2: an insecure target yields the Http variant with zero
handshakes, and an https target with a successful plain connection and
handshake yields the Https variant. -/
theorem call_variant_tag_matches_scheme_witness :
    (({ force_https := false, http := 0, tls := 0 } : HttpsConnector Nat).call
        { scheme := some "http", host := some "h" }
        (fun _ => (Except.ok 7 : Except Nat Nat))
        (fun _ _ _ => Except.ok 1)).handshakeAttempts = 0 ∧
    (({ force_https := false, http := 0, tls := 0 } : HttpsConnector Nat).call
        { scheme := some "http", host := some "h" }
        (fun _ => (Except.ok 7 : Except Nat Nat))
        (fun _ _ _ => Except.ok 1)).result =
      Except.ok (MaybeHttpsStream.http 7) ∧
    (({ force_https := false, http := 0, tls := 0 } : HttpsConnector Nat).call
        { scheme := some "https", host := some "h" }
        (fun _ => (Except.ok 7 : Except Nat Nat))
        (fun _ _ _ => Except.ok 1)).result =
      Except.ok (MaybeHttpsStream.https 1) ∧
    (MaybeHttpsStream.https 1 : MaybeHttpsStream Nat Nat).isHttpsVariant =
      true := by
  have h0 := (call_variant_tag_matches_scheme
    ({ force_https := false, http := 0, tls := 0 } : HttpsConnector Nat)
    { scheme := some "http", host := some "h" }
    (fun _ => (Except.ok 7 : Except Nat Nat))
    (fun _ _ _ => Except.ok 1)).2.1 (by decide) rfl
  have h1 := (call_variant_tag_matches_scheme
    ({ force_https := false, http := 0, tls := 0 } : HttpsConnector Nat)
    { scheme := some "https", host := some "h" }
    (fun _ => (Except.ok 7 : Except Nat Nat))
    (fun _ _ _ => Except.ok 1)).2.2 (by decide) 7 1 rfl rfl
  have h2 := (call_variant_tag_matches_scheme
    ({ force_https := false, http := 0, tls := 0 } : HttpsConnector Nat)
    { scheme := some "https", host := some "h" }
    (fun _ => (Except.ok 7 : Except Nat Nat))
    (fun _ _ _ => Except.ok 1)).1 (MaybeHttpsStream.https 1) h1
  exact ⟨h0.1, h0.2 7 rfl, h1, h2.trans (by decide)⟩

/-- Claim C9 counterexample: a target URI with scheme "https" and no host
component is not treated as a fatal input error — the call proceeds,
substituting the empty string as the host for certificate matching
(unwrap_or("") in src/client.rs line 170): the plain connector is invoked
and the handshake runs with host "". -/
theorem call_missing_host_proceeds_with_empty_host :
    (({ force_https := false, http := 0, tls := 0 } : HttpsConnector Nat).call
        { scheme := some "https", host := none }
        (fun _ => (Except.ok 7 : Except Nat Nat))
        (fun _ _ _ => Except.ok 1)) =
      { result := Except.ok (MaybeHttpsStream.https 1)
        plainCalls := 1, handshakeAttempts := 1, hostUsed := some "" } := by
  decide

/-- Claim C9 (amended): the host used for certificate-name matching is the
target URI's host with leading and trailing bracket characters stripped
(so "[::1]" yields "::1"); a target URI with no host component proceeds
with the empty string substituted as the host (any failure then arises
downstream), rather than failing as a fatal input error. -/
theorem call_host_is_bracket_stripped {T E : Type}
    (c : HttpsConnector T) (dst : Uri)
    (pc : Uri → Except E T) (tc : Nat → String → T → Except Nat Nat)
    (tcp : T)
    (hs : (dst.scheme == some "https") = true)
    (hpc : pc dst = Except.ok tcp) :
    (c.call dst pc tc).hostUsed =
        some (trimMatches isBracketChar ((dst.host).getD "")) ∧
    (dst.host = none →
        (c.call dst pc tc).hostUsed = some "" ∧
        (c.call dst pc tc).plainCalls = 1) ∧
    trimMatches isBracketChar "[::1]" = "::1" := by
  rcases htc : tc c.tls (trimMatches isBracketChar ((dst.host).getD "")) tcp
    with e | sess
  · rw [call_case_https_tls_err c dst pc tc tcp e hs hpc htc]
    refine ⟨rfl, ?_, by decide⟩
    intro hh
    rw [hh]
    exact ⟨rfl, rfl⟩
  · rw [call_case_https_tls_ok c dst pc tc tcp sess hs hpc htc]
    refine ⟨rfl, ?_, by decide⟩
    intro hh
    rw [hh]
    exact ⟨rfl, rfl⟩

/-- Witness for C9 (amended): a bracketed literal address host is stripped
to "::1" for certificate matching. -/
theorem call_host_is_bracket_stripped_witness :
    (({ force_https := false, http := 0, tls := 0 } : HttpsConnector Nat).call
        { scheme := some "https", host := some "[::1]" }
        (fun _ => (Except.ok 7 : Except Nat Nat))
        (fun _ _ _ => Except.ok 1)).hostUsed =
      some (trimMatches isBracketChar
        ((some "[::1]" : Option String).getD "")) ∧
    trimMatches isBracketChar "[::1]" = "::1" := by
  have h := call_host_is_bracket_stripped
    ({ force_https := false, http := 0, tls := 0 } : HttpsConnector Nat)
    { scheme := some "https", host := some "[::1]" }
    (fun _ => (Except.ok 7 : Except Nat Nat))
    (fun _ _ _ => Except.ok 1) 7 (by decide) rfl
  exact ⟨h.1, h.2.2⟩

end HyperTls
